import Mathlib

/-!
Verification of the workflow-execution core of the cadence history service
(spec sections 3 to 8), as exercised by service/history/historyEngine2_test.go.

The history-engine implementation itself (RecordDecisionTaskStarted,
StartWorkflowExecution, SignalWithStartWorkflowExecution, the
conditional-update retry loop, and the mutable-state aggregate) is not part
of the provided sources; only its test file is.  The definitions below are
therefore shallow models reconstructed from the specification's words,
constrained by the behaviour the test file pins down (mock call counts,
returned errors, response fields).  The durable store is modelled as a
script of responses, one per persistence call, mirroring the mock setup of
the test suite.
-/

/-- Modelled from the spec: sentinel event id used for "not started" decision
state (the engine's common.EmptyEventID constant, absent from the sources). -/
def emptyEventID : Int := -23

/-- Modelled from the spec: the bounded attempt count of the optimistic
concurrency retry loop (the engine's conditionalRetryCount constant referenced
by the test file but absent from the sources). -/
def conditionalRetryCount : Nat := 5

/-- Lifecycle state of one workflow execution run. -/
inductive WorkflowState
  | created
  | running
  | completed
deriving DecidableEq

/-- Close status recorded for a closed run. -/
inductive CloseStatus
  | statusNone
  | statusCompleted
  | statusFailed
  | statusCanceled
  | statusTerminated
  | statusTimedOut
deriving DecidableEq

/-- Modelled from the spec: a run is open unless its state is completed. -/
def isOpenState : WorkflowState → Bool
  | .completed => false
  | _ => true

/-- Modelled from the spec: the close statuses treated as failures by the
AllowDuplicateFailedOnly reuse policy (Failed, Canceled, Terminated, TimedOut). -/
def isFailedClose : CloseStatus → Bool
  | .statusFailed => true
  | .statusCanceled => true
  | .statusTerminated => true
  | .statusTimedOut => true
  | _ => false

/-- One outstanding decision unit of an execution (spec section 3, DecisionInfo). -/
structure DecisionInfo where
  scheduleID : Int
  startedID : Int
  requestID : String
  attempt : Int
deriving DecidableEq

/-- Execution metadata of the mutable-state aggregate (spec section 3). -/
structure ExecutionInfo where
  state : WorkflowState
  closeStatus : CloseStatus
  taskList : String
  stickyTaskList : String
  lastUpdatedTimestamp : Nat
  lastProcessedEvent : Int
  nextEventID : Int
  startRequestID : String
  lastWriteVersion : Int
deriving DecidableEq

/-- The mutable-state aggregate of one workflow execution (spec section 3). -/
structure MutableState where
  executionInfo : ExecutionInfo
  workflowType : String
  decision : Option DecisionInfo
deriving DecidableEq

/-- Engine clock and sticky-TTL configuration consulted when building a
decision-task-started response. -/
structure Env where
  now : Nat
  stickyTTL : Nat
deriving DecidableEq

/-- Error taxonomy of spec section 7. -/
inductive EngineErr
  | badRequest (msg : String)
  | entityNotExists
  | eventAlreadyStarted
  | workflowExecutionAlreadyStarted (runID : String)
  | invalidStateTransition
  | maxAttemptsExceeded
  | timeout
  | other (msg : String)
deriving DecidableEq

/-- Result of one engine operation: a typed response or a typed error. -/
inductive EngineResult (α : Type)
  | ok (val : α)
  | err (e : EngineErr)
deriving DecidableEq

/-- Projection to the successful payload of an engine result, if any. -/
def EngineResult.getOk {α : Type} : EngineResult α → Option α
  | .ok a => some a
  | .err _ => none

/-- Errors the store can report on a load (spec section 6, GetWorkflowExecution). -/
inductive GetErr
  | entityNotExists
  | other (msg : String)
deriving DecidableEq

/-- Lift a store load error into the engine error taxonomy (propagated unchanged). -/
def GetErr.toEngineErr : GetErr → EngineErr
  | .entityNotExists => .entityNotExists
  | .other m => .other m

/-- Outcome of one conditional UpdateWorkflowExecution call (spec section 6). -/
inductive UpdateResult
  | success
  | conditionFailed
deriving DecidableEq

/-- Modelled from the spec: appending an event assigns the current nextEventID
and increments it by exactly one (spec section 3, MutableState invariant).
This is the shared core of every event-appending aggregate operation. -/
def appendEvent (ms : MutableState) : MutableState × Int :=
  ({ ms with
      executionInfo :=
        { ms.executionInfo with nextEventID := ms.executionInfo.nextEventID + 1 } },
   ms.executionInfo.nextEventID)

/-- Event ids assigned by a sequence of successive appends on one execution. -/
def appendEventIDs : MutableState → Nat → List Int
  | _, 0 => []
  | ms, n + 1 => (appendEvent ms).2 :: appendEventIDs (appendEvent ms).1 n

/-- Modelled from the spec: scheduling a decision appends a decision-task
scheduled event and records the pending DecisionInfo; scheduling while a
decision is already pending is an invalid state transition (spec section 8). -/
def addDecisionTaskScheduledEvent (ms : MutableState) :
    EngineResult (MutableState × DecisionInfo) :=
  match ms.decision with
  | some _ => .err .invalidStateTransition
  | none =>
    let r := appendEvent ms
    let di : DecisionInfo :=
      { scheduleID := r.2, startedID := emptyEventID, requestID := "", attempt := 0 }
    .ok ({ r.1 with decision := some di }, di)

/-- Modelled from the spec: starting a pending decision appends a
decision-task started event, marks the decision started and records the
starter's requestID for idempotent replay detection. -/
def addDecisionTaskStartedEvent (ms : MutableState) (di : DecisionInfo)
    (requestID : String) : MutableState × Int :=
  let r := appendEvent ms
  ({ r.1 with decision := some { di with startedID := r.2, requestID := requestID } }, r.2)

/-- Modelled from the spec: clearing sticky metadata reverts the execution to
normal task-list dispatch (the aggregate's ClearStickyness operation). -/
def clearStickyness (ms : MutableState) : MutableState :=
  { ms with executionInfo := { ms.executionInfo with stickyTaskList := "" } }

/-- Modelled from the spec and the sticky tests: sticky execution is enabled
when a sticky task list is configured and the sticky affinity has not expired,
that is, the current time is within stickyTTL of the execution's last-updated
timestamp (tests StickyExpired and StickyEnabled). -/
def isStickyTaskListEnabled (ms : MutableState) (env : Env) : Bool :=
  decide (ms.executionInfo.stickyTaskList ≠ "") &&
    decide (env.now ≤ ms.executionInfo.lastUpdatedTimestamp + env.stickyTTL)

/-- Lookup of the decision pending or started at a given scheduleID; at most
one outstanding decision exists per execution (spec section 3). -/
def getDecisionInfo (ms : MutableState) (scheduleID : Int) : Option DecisionInfo :=
  match ms.decision with
  | some di => if di.scheduleID = scheduleID then some di else none
  | none => none

/-- Inputs of RecordDecisionTaskStarted used by the model (spec section 4.4). -/
structure RecordDecisionTaskStartedRequest where
  scheduleID : Int
  requestID : String
  pollTaskList : String
deriving DecidableEq

/-- Response of RecordDecisionTaskStarted, with the fields the test file checks. -/
structure RecordDecisionTaskStartedResponse where
  workflowType : String
  previousStartedEventID : Option Int
  scheduledEventID : Int
  startedEventID : Int
  stickyExecutionEnabled : Bool
  nextEventID : Int
  attempt : Int
  workflowExecutionTaskList : String
deriving DecidableEq

/-- Assemble a RecordDecisionTaskStarted response from an aggregate and its
decision (the engine's createRecordDecisionTaskStartedResponse helper). -/
def mkRDSResponse (ms : MutableState) (di : DecisionInfo) (startedID nextID : Int)
    (env : Env) : RecordDecisionTaskStartedResponse :=
  { workflowType := ms.workflowType
  , previousStartedEventID :=
      if ms.executionInfo.lastProcessedEvent = emptyEventID then none
      else some ms.executionInfo.lastProcessedEvent
  , scheduledEventID := di.scheduleID
  , startedEventID := startedID
  , stickyExecutionEnabled := isStickyTaskListEnabled ms env
  , nextEventID := nextID
  , attempt := di.attempt
  , workflowExecutionTaskList := ms.executionInfo.taskList }

/-- Modelled from the spec: the success path of RecordDecisionTaskStarted on a
pending decision.  Sticky metadata is cleared when the poll's task list differs
from the configured sticky task list, then the decision-started event is
appended; the response is assembled from the resulting aggregate (spec 4.4). -/
def startDecisionOutcome (env : Env) (req : RecordDecisionTaskStartedRequest)
    (ms : MutableState) (di : DecisionInfo) :
    RecordDecisionTaskStartedResponse × MutableState :=
  let ms1 :=
    if req.pollTaskList = ms.executionInfo.stickyTaskList then ms
    else clearStickyness ms
  let r := addDecisionTaskStartedEvent ms1 di req.requestID
  (mkRDSResponse ms1 di r.2 r.1.executionInfo.nextEventID env, r.1)

/-- Count of store calls performed by one engine operation, together with the
last successfully persisted aggregate. -/
structure Trace where
  gets : Nat
  appends : Nat
  updates : Nat
  lastPersisted : Option MutableState
deriving DecidableEq

/-- Trace with no store calls recorded. -/
def Trace.empty : Trace := ⟨0, 0, 0, none⟩

/-- Record one GetWorkflowExecution call. -/
def Trace.recordGet (tr : Trace) : Trace := { tr with gets := tr.gets + 1 }

/-- Record one AppendHistoryNodes call. -/
def Trace.recordAppend (tr : Trace) : Trace := { tr with appends := tr.appends + 1 }

/-- Record one UpdateWorkflowExecution call. -/
def Trace.recordUpdate (tr : Trace) : Trace := { tr with updates := tr.updates + 1 }

/-- Record the aggregate carried by a successful conditional update. -/
def Trace.recordPersisted (tr : Trace) (ms : MutableState) : Trace :=
  { tr with lastPersisted := some ms }

/-- Modelled from the spec: the bounded conditional-update retry loop of
RecordDecisionTaskStarted (spec sections 4.3 and 4.4; the engine's
historyEngine2.go implementation is absent from the sources).  Each attempt
loads the state afresh from the store script, re-evaluates the idempotency and
conflict checks against the freshly loaded state, and on a pending decision
appends the started event and attempts a conditional persist; a ConditionFailed
response discards the aggregate and retries; fuel exhaustion yields
MaxAttemptsExceeded. -/
def recordDecisionTaskStartedAux (env : Env) (req : RecordDecisionTaskStartedRequest)
    (gets : List (Except GetErr MutableState)) (updates : List UpdateResult)
    (fuel : Nat) (tr : Trace) :
    EngineResult RecordDecisionTaskStartedResponse × Trace :=
  match fuel with
  | 0 => (.err .maxAttemptsExceeded, tr)
  | fuel2 + 1 =>
    match gets with
    | [] => (.err (.other "store script exhausted on load"), tr)
    | g :: gets2 =>
      let tr1 := tr.recordGet
      match g with
      | .error ge => (.err ge.toEngineErr, tr1)
      | .ok ms =>
        if isOpenState ms.executionInfo.state = true then
          match getDecisionInfo ms req.scheduleID with
          | none => (.err .entityNotExists, tr1)
          | some di =>
            if di.startedID = emptyEventID then
              let out := startDecisionOutcome env req ms di
              let tr2 := tr1.recordAppend
              match updates with
              | [] => (.err (.other "store script exhausted on update"), tr2)
              | u :: updates2 =>
                let tr3 := tr2.recordUpdate
                match u with
                | .success => (.ok out.1, tr3.recordPersisted out.2)
                | .conditionFailed =>
                  recordDecisionTaskStartedAux env req gets2 updates2 fuel2 tr3
            else
              if di.requestID = req.requestID then
                (.ok (mkRDSResponse ms di di.startedID ms.executionInfo.nextEventID env), tr1)
              else
                (.err .eventAlreadyStarted, tr1)
        else (.err .entityNotExists, tr1)

/-- RecordDecisionTaskStarted entry point: the retry loop run with the
configured attempt budget and an empty trace. -/
def recordDecisionTaskStarted (env : Env) (req : RecordDecisionTaskStartedRequest)
    (gets : List (Except GetErr MutableState)) (updates : List UpdateResult) :
    EngineResult RecordDecisionTaskStartedResponse × Trace :=
  recordDecisionTaskStartedAux env req gets updates conditionalRetryCount Trace.empty

/-- Workflow-id reuse policy enum (spec section 4.5). -/
inductive WorkflowIDReusePolicy
  | allowDuplicateFailedOnly
  | allowDuplicate
  | rejectDuplicate
  | terminateIfRunning
deriving DecidableEq

/-- Information about the conflicting current run carried by the store's
WorkflowExecutionAlreadyStarted error (spec section 6). -/
structure PrevExecInfo where
  startRequestID : String
  runID : String
  state : WorkflowState
  closeStatus : CloseStatus
  lastWriteVersion : Int
deriving DecidableEq

/-- Outcome of one CreateWorkflowExecution call (spec section 6). -/
inductive CreateResult
  | ok
  | alreadyStarted (prev : PrevExecInfo)
  | timeout
deriving DecidableEq

/-- Persistence calls issued by the start and signal-with-start orchestrator,
recorded in order. -/
inductive PersistOp
  | getCurrentExecution
  | getWorkflowExecution
  | appendHistory
  | updateWorkflowExecution
  | createBrandNew (requestID : String) (runID : String)
  | createReuse (prevRunID : String) (prevLastWriteVersion : Int)
deriving DecidableEq

/-- Modelled from the spec: whether the reuse policy permits a new run after a
closed prior run (spec section 4.5 decision table).  RejectDuplicate never
permits; AllowDuplicate always permits; AllowDuplicateFailedOnly permits only
failure-like close statuses.  The spec leaves TerminateIfRunning after a closed
run unspecified; it is treated like AllowDuplicate and no theorem relies on it. -/
def applyWorkflowIDReusePolicy (policy : WorkflowIDReusePolicy)
    (closeStatus : CloseStatus) : Bool :=
  match policy with
  | .rejectDuplicate => false
  | .allowDuplicate => true
  | .terminateIfRunning => true
  | .allowDuplicateFailedOnly => isFailedClose closeStatus

/-- Modelled from the spec: StartWorkflowExecution (spec section 4.5; the
engine implementation is absent from the sources).  A missing domain fails fast
with BadRequest before any persistence access.  Otherwise history for the new
run is appended and a brand-new create is attempted; on a
WorkflowExecutionAlreadyStarted store error the decision table runs: an open
current run dedups on equal StartRequestID and otherwise fails regardless of
policy; a closed current run consults the reuse policy and, when permitted,
retries the create in workflow-id-reuse mode seeded with the closed run's runID
and last-write version. -/
def startWorkflowExecution (domainUUID : Option String) (requestID : String)
    (policy : WorkflowIDReusePolicy) (newRunID : String)
    (creates : List CreateResult) : EngineResult String × List PersistOp :=
  match domainUUID with
  | none => (.err (.badRequest "Missing domain UUID."), [])
  | some _ =>
    let baseOps := [PersistOp.appendHistory, PersistOp.createBrandNew requestID newRunID]
    match creates with
    | [] => (.err (.other "store script exhausted on create"), baseOps)
    | c :: creates2 =>
      match c with
      | .ok => (.ok newRunID, baseOps)
      | .timeout => (.err .timeout, baseOps)
      | .alreadyStarted prev =>
        if isOpenState prev.state = true then
          if prev.startRequestID = requestID then (.ok prev.runID, baseOps)
          else (.err (.workflowExecutionAlreadyStarted prev.runID), baseOps)
        else
          if applyWorkflowIDReusePolicy policy prev.closeStatus = true then
            let ops2 := baseOps ++ [PersistOp.createReuse prev.runID prev.lastWriteVersion]
            match creates2 with
            | [] => (.err (.other "store script exhausted on create"), ops2)
            | .ok :: _ => (.ok newRunID, ops2)
            | .timeout :: _ => (.err .timeout, ops2)
            | .alreadyStarted prev2 :: _ =>
              (.err (.workflowExecutionAlreadyStarted prev2.runID), ops2)
          else (.err (.workflowExecutionAlreadyStarted prev.runID), baseOps)

/-- Store responses consumed by one SignalWithStartWorkflowExecution call:
current-run lookup, current-run load, the abstract outcome of the
signal-append persist loop of spec section 4.3, and the create outcome. -/
structure SWSScript where
  getCurrent : Except GetErr String
  getExec : Except GetErr MutableState
  signalPersist : Option EngineErr
  create : CreateResult

/-- Modelled from the spec and the create-timeout test: shared create tail of
SignalWithStartWorkflowExecution.  A successful create returns the new runID; a
store Timeout propagates the error while still returning the runID the create
attempted, since the create may in fact have committed; a
WorkflowExecutionAlreadyStarted error dedups on an open run with equal
StartRequestID and otherwise fails with no response. -/
def signalCreatePart (requestID : String) (newRunID : String) (c : CreateResult) :
    Option String × Option EngineErr :=
  match c with
  | .ok => (some newRunID, none)
  | .timeout => (some newRunID, some .timeout)
  | .alreadyStarted prev =>
    if isOpenState prev.state = true ∧ prev.startRequestID = requestID then
      (some prev.runID, none)
    else (none, some (.workflowExecutionAlreadyStarted prev.runID))

/-- Modelled from the spec: SignalWithStartWorkflowExecution (spec section 4.5;
the engine implementation is absent from the sources).  A missing domain fails
fast with BadRequest before any persistence access.  Otherwise the current run
is looked up; if it is open the signal is appended and persisted to it; if it
is closed the reuse-policy table gates a start-with-signal creation; if no
current run exists a brand-new start-with-signal creation is performed. -/
def signalWithStartWorkflowExecution (domainUUID : Option String) (requestID : String)
    (policy : WorkflowIDReusePolicy) (newRunID : String) (script : SWSScript) :
    (Option String × Option EngineErr) × List PersistOp :=
  match domainUUID with
  | none => ((none, some (.badRequest "Missing domain UUID.")), [])
  | some _ =>
    match script.getCurrent with
    | .error .entityNotExists =>
      (signalCreatePart requestID newRunID script.create,
       [PersistOp.getCurrentExecution, PersistOp.appendHistory,
        PersistOp.createBrandNew requestID newRunID])
    | .error (.other m) => ((none, some (.other m)), [PersistOp.getCurrentExecution])
    | .ok curRunID =>
      match script.getExec with
      | .error ge =>
        ((none, some ge.toEngineErr),
         [PersistOp.getCurrentExecution, PersistOp.getWorkflowExecution])
      | .ok ms =>
        if isOpenState ms.executionInfo.state = true then
          match script.signalPersist with
          | none =>
            ((some curRunID, none),
             [PersistOp.getCurrentExecution, PersistOp.getWorkflowExecution,
              PersistOp.appendHistory, PersistOp.updateWorkflowExecution])
          | some e =>
            ((none, some e),
             [PersistOp.getCurrentExecution, PersistOp.getWorkflowExecution,
              PersistOp.appendHistory, PersistOp.updateWorkflowExecution])
        else
          if applyWorkflowIDReusePolicy policy ms.executionInfo.closeStatus = true then
            (signalCreatePart requestID newRunID script.create,
             [PersistOp.getCurrentExecution, PersistOp.getWorkflowExecution,
              PersistOp.appendHistory,
              PersistOp.createReuse curRunID ms.executionInfo.lastWriteVersion])
          else
            ((none, some (.workflowExecutionAlreadyStarted curRunID)),
             [PersistOp.getCurrentExecution, PersistOp.getWorkflowExecution])

/-- Concrete engine environment used by the witnesses: current time 100,
sticky TTL 10. -/
def envW : Env := ⟨100, 10⟩

/-- Concrete execution metadata of a running execution with a freshly
scheduled decision (events: started at 1, decision scheduled at 2). -/
def execInfoPendingW : ExecutionInfo :=
  ⟨.running, .statusNone, "testTaskList", "", 50, emptyEventID, 3, "startReq", -24⟩

/-- Concrete pending decision scheduled at event 2. -/
def diPendingW : DecisionInfo := ⟨2, emptyEventID, "", 0⟩

/-- Concrete running execution with a pending decision at scheduleID 2. -/
def msPendingW : MutableState := ⟨execInfoPendingW, "wType", some diPendingW⟩

/-- Concrete RecordDecisionTaskStarted request for scheduleID 2. -/
def reqW : RecordDecisionTaskStartedRequest := ⟨2, "reqId", "testTaskList"⟩

/-- Concrete decision already started at event 3 by the request "reqId". -/
def diStartedW : DecisionInfo := ⟨2, 3, "reqId", 0⟩

/-- Concrete execution whose decision at scheduleID 2 is already started by
the same request "reqId". -/
def msStartedW : MutableState :=
  ⟨{ execInfoPendingW with nextEventID := 4 }, "wType", some diStartedW⟩

/-- Concrete decision already started at event 3 by a different request. -/
def diStartedOtherW : DecisionInfo := ⟨2, 3, "someOtherReq", 0⟩

/-- Concrete execution whose decision at scheduleID 2 is already started by a
different request. -/
def msStartedOtherW : MutableState :=
  ⟨{ execInfoPendingW with nextEventID := 4 }, "wType", some diStartedOtherW⟩

/-- Concrete environment in which any sticky affinity last refreshed at time 0
is long expired (now 1000, TTL 10). -/
def envExpiredW : Env := ⟨1000, 10⟩

/-- Concrete execution with sticky task list configured but whose sticky
affinity has expired (last updated at time 0). -/
def msStickyExpiredW : MutableState :=
  ⟨⟨.running, .statusNone, "testTaskList", "stickyTaskList", 0, emptyEventID, 3,
    "startReq", -24⟩, "wType", some diPendingW⟩

/-- Concrete poll request arriving on the sticky task list. -/
def reqStickyW : RecordDecisionTaskStartedRequest := ⟨2, "reqId", "stickyTaskList"⟩

/-- Concrete open current run whose start request was "requestID". -/
def prevOpenW : PrevExecInfo := ⟨"requestID", "runID", .running, .statusNone, -24⟩

/-- Concrete closed current run that completed successfully. -/
def prevClosedCompletedW : PrevExecInfo :=
  ⟨"oldRequestID", "runID", .completed, .statusCompleted, -24⟩

/-- Concrete closed current run that failed. -/
def prevClosedFailedW : PrevExecInfo :=
  ⟨"oldRequestID", "1", .completed, .statusFailed, -24⟩

/-- Concrete fresh execution with no pending decision and nextEventID 1. -/
def msFreshW : MutableState :=
  ⟨⟨.running, .statusNone, "testTaskList", "", 0, emptyEventID, 1, "startReq", -24⟩,
   "wType", none⟩

/-- Concrete SignalWithStart store script: no current execution and a create
that times out. -/
def swsTimeoutScriptW : SWSScript :=
  ⟨.error .entityNotExists, .error .entityNotExists, none, .timeout⟩

/-- Helper: when every loaded snapshot shows the same running execution with a
pending decision and every conditional update fails, the retry loop with n
attempts performs exactly n loads, n appends and n updates and then reports
MaxAttemptsExceeded. -/
theorem rds_exhaust_general (env : Env) (req : RecordDecisionTaskStartedRequest)
    (ms : MutableState) (di : DecisionInfo)
    (hrun : isOpenState ms.executionInfo.state = true)
    (hdec : getDecisionInfo ms req.scheduleID = some di)
    (hpend : di.startedID = emptyEventID) :
    ∀ (n : Nat) (tr : Trace),
      recordDecisionTaskStartedAux env req (List.replicate n (Except.ok ms))
          (List.replicate n UpdateResult.conditionFailed) n tr
        = (.err .maxAttemptsExceeded,
            { tr with gets := tr.gets + n, appends := tr.appends + n,
                      updates := tr.updates + n }) := by
  intro n
  induction n with
  | zero =>
    intro tr
    cases tr
    simp [recordDecisionTaskStartedAux]
  | succ k ih =>
    intro tr
    rw [List.replicate_succ, List.replicate_succ]
    simp only [recordDecisionTaskStartedAux, hrun, hdec, hpend, if_pos, ite_true,
      reduceIte]
    rw [ih]
    cases tr
    simp only [Trace.recordGet, Trace.recordAppend, Trace.recordUpdate, Prod.mk.injEq,
      Trace.mk.injEq, and_true, true_and]
    omega

/-- C1: when the store reports a conditional-update failure on every one of the
configured conditionalRetryCount attempts of RecordDecisionTaskStarted, the
operation fails with exactly MaxAttemptsExceeded and the store's
load/append/update sequence is performed exactly conditionalRetryCount times,
no more and no fewer. -/
theorem recordDecisionTaskStarted_retryExhaustion (env : Env)
    (req : RecordDecisionTaskStartedRequest) (ms : MutableState) (di : DecisionInfo)
    (hrun : isOpenState ms.executionInfo.state = true)
    (hdec : getDecisionInfo ms req.scheduleID = some di)
    (hpend : di.startedID = emptyEventID) :
    recordDecisionTaskStarted env req
        (List.replicate conditionalRetryCount (Except.ok ms))
        (List.replicate conditionalRetryCount UpdateResult.conditionFailed)
      = (.err .maxAttemptsExceeded,
         ⟨conditionalRetryCount, conditionalRetryCount, conditionalRetryCount, none⟩) := by
  have h := rds_exhaust_general env req ms di hrun hdec hpend conditionalRetryCount
    Trace.empty
  simpa [recordDecisionTaskStarted, Trace.empty] using h

/-- Witness for C1 at a concrete running execution with a pending decision at
scheduleID 2: five loads, five appends, five failed updates, then
MaxAttemptsExceeded. -/
theorem recordDecisionTaskStarted_retryExhaustion_witness :
    recordDecisionTaskStarted envW reqW
        (List.replicate conditionalRetryCount (Except.ok msPendingW))
        (List.replicate conditionalRetryCount UpdateResult.conditionFailed)
      = (.err .maxAttemptsExceeded, ⟨5, 5, 5, none⟩) :=
  recordDecisionTaskStarted_retryExhaustion envW reqW msPendingW diPendingW rfl rfl rfl

/-- Helper: k consecutive conditional-update failures on pending snapshots
followed by a successful persist yield a successful result computed from the
last loaded snapshot, with k+1 loads, appends and updates, for any fuel
exceeding k. -/
theorem rds_conflictRetry_general (env : Env) (req : RecordDecisionTaskStartedRequest)
    (msA : MutableState) (diA : DecisionInfo) (msB : MutableState) (diB : DecisionInfo)
    (hrunA : isOpenState msA.executionInfo.state = true)
    (hdecA : getDecisionInfo msA req.scheduleID = some diA)
    (hpendA : diA.startedID = emptyEventID)
    (hrunB : isOpenState msB.executionInfo.state = true)
    (hdecB : getDecisionInfo msB req.scheduleID = some diB)
    (hpendB : diB.startedID = emptyEventID) :
    ∀ (k fuel : Nat) (tr : Trace), k < fuel →
      recordDecisionTaskStartedAux env req
          (List.replicate k (Except.ok msA) ++ [Except.ok msB])
          (List.replicate k UpdateResult.conditionFailed ++ [UpdateResult.success])
          fuel tr
        = (.ok (startDecisionOutcome env req msB diB).1,
           { tr with gets := tr.gets + (k + 1), appends := tr.appends + (k + 1),
                     updates := tr.updates + (k + 1),
                     lastPersisted := some (startDecisionOutcome env req msB diB).2 }) := by
  intro k
  induction k with
  | zero =>
    intro fuel tr hk
    cases fuel with
    | zero => omega
    | succ f =>
      simp only [List.replicate, List.nil_append, recordDecisionTaskStartedAux,
        hrunB, hdecB, hpendB, if_pos, ite_true, reduceIte]
      cases tr
      simp only [Trace.recordGet, Trace.recordAppend, Trace.recordUpdate,
        Trace.recordPersisted, Prod.mk.injEq, Trace.mk.injEq, and_true, true_and]
  | succ j ih =>
    intro fuel tr hk
    cases fuel with
    | zero => omega
    | succ f =>
      rw [List.replicate_succ, List.replicate_succ, List.cons_append, List.cons_append]
      simp only [recordDecisionTaskStartedAux, hrunA, hdecA, hpendA, if_pos, ite_true,
        reduceIte]
      rw [ih f (((tr.recordGet).recordAppend).recordUpdate) (by omega)]
      cases tr
      simp only [Trace.recordGet, Trace.recordAppend, Trace.recordUpdate,
        Prod.mk.injEq, Trace.mk.injEq, and_true, true_and]
      omega

/-- C7: when the store reports conditional-update failures on some attempts but
a later attempt within the conditionalRetryCount budget persists successfully,
RecordDecisionTaskStarted returns a successful response computed from the
freshly reloaded state of the final attempt, and the intermediate conditional
failures are not visible to the caller as an error. -/
theorem recordDecisionTaskStarted_conflictThenSuccess (env : Env)
    (req : RecordDecisionTaskStartedRequest)
    (msA : MutableState) (diA : DecisionInfo) (msB : MutableState) (diB : DecisionInfo)
    (k : Nat)
    (hrunA : isOpenState msA.executionInfo.state = true)
    (hdecA : getDecisionInfo msA req.scheduleID = some diA)
    (hpendA : diA.startedID = emptyEventID)
    (hrunB : isOpenState msB.executionInfo.state = true)
    (hdecB : getDecisionInfo msB req.scheduleID = some diB)
    (hpendB : diB.startedID = emptyEventID)
    (hk : k < conditionalRetryCount) :
    recordDecisionTaskStarted env req
        (List.replicate k (Except.ok msA) ++ [Except.ok msB])
        (List.replicate k UpdateResult.conditionFailed ++ [UpdateResult.success])
      = (.ok (startDecisionOutcome env req msB diB).1,
         ⟨k + 1, k + 1, k + 1, some (startDecisionOutcome env req msB diB).2⟩) := by
  have h := rds_conflictRetry_general env req msA diA msB diB hrunA hdecA hpendA
    hrunB hdecB hpendB k conditionalRetryCount Trace.empty hk
  simpa [recordDecisionTaskStarted, Trace.empty] using h

/-- Witness for C7: one conditional failure followed by a successful persist on
the concrete pending execution returns the freshly computed success response
after two loads, two appends and two updates. -/
theorem recordDecisionTaskStarted_conflictThenSuccess_witness :
    recordDecisionTaskStarted envW reqW
        (List.replicate 1 (Except.ok msPendingW) ++ [Except.ok msPendingW])
        (List.replicate 1 UpdateResult.conditionFailed ++ [UpdateResult.success])
      = (.ok (startDecisionOutcome envW reqW msPendingW diPendingW).1,
         ⟨2, 2, 2, some (startDecisionOutcome envW reqW msPendingW diPendingW).2⟩) :=
  recordDecisionTaskStarted_conflictThenSuccess envW reqW msPendingW diPendingW
    msPendingW diPendingW 1 rfl rfl rfl rfl rfl rfl (by decide)

/-- Helper: one attempt that loads a running execution whose decision is
already started by the same requestID returns the idempotent response derived
from the existing started event, touching the store only for the load. -/
theorem rds_startedSame_general (env : Env) (req : RecordDecisionTaskStartedRequest)
    (ms : MutableState) (di : DecisionInfo)
    (hrun : isOpenState ms.executionInfo.state = true)
    (hdec : getDecisionInfo ms req.scheduleID = some di)
    (hstarted : ¬ di.startedID = emptyEventID)
    (hsame : di.requestID = req.requestID) :
    ∀ (f : Nat) (gets2 : List (Except GetErr MutableState)) (updates : List UpdateResult)
      (tr : Trace),
      recordDecisionTaskStartedAux env req (Except.ok ms :: gets2) updates (f + 1) tr
        = (.ok (mkRDSResponse ms di di.startedID ms.executionInfo.nextEventID env),
           tr.recordGet) := by
  intro f gets2 updates tr
  simp only [recordDecisionTaskStartedAux, hrun, hdec, hstarted, hsame, if_pos,
    ite_true, ite_false, reduceIte]

/-- Helper: one attempt that loads a running execution whose decision is
already started by a different requestID fails with EventAlreadyStarted,
touching the store only for the load. -/
theorem rds_startedDiff_general (env : Env) (req : RecordDecisionTaskStartedRequest)
    (ms : MutableState) (di : DecisionInfo)
    (hrun : isOpenState ms.executionInfo.state = true)
    (hdec : getDecisionInfo ms req.scheduleID = some di)
    (hstarted : ¬ di.startedID = emptyEventID)
    (hdiff : ¬ di.requestID = req.requestID) :
    ∀ (f : Nat) (gets2 : List (Except GetErr MutableState)) (updates : List UpdateResult)
      (tr : Trace),
      recordDecisionTaskStartedAux env req (Except.ok ms :: gets2) updates (f + 1) tr
        = (.err .eventAlreadyStarted, tr.recordGet) := by
  intro f gets2 updates tr
  simp only [recordDecisionTaskStartedAux, hrun, hdec, hstarted, hdiff, if_pos,
    ite_true, ite_false, reduceIte]

/-- Helper: one attempt on a pending decision whose conditional update fails
recurses into the next attempt with one more load, append and update recorded. -/
theorem rds_conflictStep_general (env : Env) (req : RecordDecisionTaskStartedRequest)
    (ms : MutableState) (di : DecisionInfo)
    (hrun : isOpenState ms.executionInfo.state = true)
    (hdec : getDecisionInfo ms req.scheduleID = some di)
    (hpend : di.startedID = emptyEventID) :
    ∀ (f : Nat) (gets2 : List (Except GetErr MutableState)) (updates2 : List UpdateResult)
      (tr : Trace),
      recordDecisionTaskStartedAux env req (Except.ok ms :: gets2)
          (UpdateResult.conditionFailed :: updates2) (f + 1) tr
        = recordDecisionTaskStartedAux env req gets2 updates2 f
            (((tr.recordGet).recordAppend).recordUpdate) := by
  intro f gets2 updates2 tr
  simp only [recordDecisionTaskStartedAux, hrun, hdec, hpend, if_pos, ite_true,
    reduceIte]

/-- Helper: one attempt on a pending decision whose conditional update succeeds
returns the freshly computed success outcome and records the persisted state. -/
theorem rds_successStep_general (env : Env) (req : RecordDecisionTaskStartedRequest)
    (ms : MutableState) (di : DecisionInfo)
    (hrun : isOpenState ms.executionInfo.state = true)
    (hdec : getDecisionInfo ms req.scheduleID = some di)
    (hpend : di.startedID = emptyEventID) :
    ∀ (f : Nat) (gets2 : List (Except GetErr MutableState)) (updates2 : List UpdateResult)
      (tr : Trace),
      recordDecisionTaskStartedAux env req (Except.ok ms :: gets2)
          (UpdateResult.success :: updates2) (f + 1) tr
        = (.ok (startDecisionOutcome env req ms di).1,
           ((((tr.recordGet).recordAppend).recordUpdate)).recordPersisted
             (startDecisionOutcome env req ms di).2) := by
  intro f gets2 updates2 tr
  simp only [recordDecisionTaskStartedAux, hrun, hdec, hpend, if_pos, ite_true,
    reduceIte]

/-- C3: for an execution whose decision at the given scheduleID is already
started with requestID R, calling RecordDecisionTaskStarted again with the same
requestID R and scheduleID succeeds, returns exactly the startedEventID the
original start assigned (the response is derived from the existing started
event), and persists no second decision-started transition: the store sees one
load and no append or update. -/
theorem recordDecisionTaskStarted_idempotentSameRequest (env : Env)
    (req : RecordDecisionTaskStartedRequest) (ms : MutableState) (di : DecisionInfo)
    (hrun : isOpenState ms.executionInfo.state = true)
    (hdec : getDecisionInfo ms req.scheduleID = some di)
    (hstarted : ¬ di.startedID = emptyEventID)
    (hsame : di.requestID = req.requestID) :
    recordDecisionTaskStarted env req [Except.ok ms] []
      = (.ok (mkRDSResponse ms di di.startedID ms.executionInfo.nextEventID env),
         ⟨1, 0, 0, none⟩)
    ∧ (mkRDSResponse ms di di.startedID ms.executionInfo.nextEventID env).startedEventID
        = di.startedID := by
  refine ⟨?_, rfl⟩
  have h := rds_startedSame_general env req ms di hrun hdec hstarted hsame 4 [] []
    Trace.empty
  simpa [recordDecisionTaskStarted, conditionalRetryCount, Trace.empty,
    Trace.recordGet] using h

/-- Witness for C3 at the concrete execution whose decision at scheduleID 2 is
already started at event 3 by "reqId": the repeated call returns startedEventID
3 with no append or update. -/
theorem recordDecisionTaskStarted_idempotentSameRequest_witness :
    recordDecisionTaskStarted envW reqW [Except.ok msStartedW] []
      = (.ok (mkRDSResponse msStartedW diStartedW 3 4 envW), ⟨1, 0, 0, none⟩)
    ∧ (mkRDSResponse msStartedW diStartedW 3 4 envW).startedEventID = 3 :=
  recordDecisionTaskStarted_idempotentSameRequest envW reqW msStartedW diStartedW
    rfl rfl (by decide) rfl

/-- C6: a RecordDecisionTaskStarted call whose scheduleID refers to a decision
already started under a different requestID fails with EventAlreadyStarted and
returns no response, both when the conflicting start is observed on the first
load and when it is only observed on the reload after a conditional-update
failure. -/
theorem recordDecisionTaskStarted_eventAlreadyStarted (env : Env)
    (req : RecordDecisionTaskStartedRequest)
    (msS : MutableState) (diS : DecisionInfo) (msP : MutableState) (diP : DecisionInfo)
    (hrunS : isOpenState msS.executionInfo.state = true)
    (hdecS : getDecisionInfo msS req.scheduleID = some diS)
    (hstartedS : ¬ diS.startedID = emptyEventID)
    (hdiff : ¬ diS.requestID = req.requestID)
    (hrunP : isOpenState msP.executionInfo.state = true)
    (hdecP : getDecisionInfo msP req.scheduleID = some diP)
    (hpendP : diP.startedID = emptyEventID) :
    recordDecisionTaskStarted env req [Except.ok msS] []
      = (.err .eventAlreadyStarted, ⟨1, 0, 0, none⟩)
    ∧ recordDecisionTaskStarted env req [Except.ok msP, Except.ok msS]
        [UpdateResult.conditionFailed]
      = (.err .eventAlreadyStarted, ⟨2, 1, 1, none⟩) := by
  constructor
  · have h := rds_startedDiff_general env req msS diS hrunS hdecS hstartedS hdiff 4 [] []
      Trace.empty
    simpa [recordDecisionTaskStarted, conditionalRetryCount, Trace.empty,
      Trace.recordGet] using h
  · have h1 := rds_conflictStep_general env req msP diP hrunP hdecP hpendP 4
      [Except.ok msS] [] Trace.empty
    have h2 := rds_startedDiff_general env req msS diS hrunS hdecS hstartedS hdiff 3 [] []
      (((Trace.empty.recordGet).recordAppend).recordUpdate)
    simp only [recordDecisionTaskStarted, conditionalRetryCount]
    calc recordDecisionTaskStartedAux env req [Except.ok msP, Except.ok msS]
          [UpdateResult.conditionFailed] 5 Trace.empty
        = recordDecisionTaskStartedAux env req [Except.ok msS] [] 4
            (((Trace.empty.recordGet).recordAppend).recordUpdate) := h1
      _ = (.err .eventAlreadyStarted,
            ((((Trace.empty.recordGet).recordAppend).recordUpdate)).recordGet) := h2
      _ = (.err .eventAlreadyStarted, ⟨2, 1, 1, none⟩) := by
            simp [Trace.empty, Trace.recordGet, Trace.recordAppend, Trace.recordUpdate]

/-- Witness for C6 at the concrete execution whose decision is started by
"someOtherReq" while the poll carries "reqId": EventAlreadyStarted on the
direct load and on the reload after a conflict. -/
theorem recordDecisionTaskStarted_eventAlreadyStarted_witness :
    recordDecisionTaskStarted envW reqW [Except.ok msStartedOtherW] []
      = (.err .eventAlreadyStarted, ⟨1, 0, 0, none⟩)
    ∧ recordDecisionTaskStarted envW reqW [Except.ok msPendingW, Except.ok msStartedOtherW]
        [UpdateResult.conditionFailed]
      = (.err .eventAlreadyStarted, ⟨2, 1, 1, none⟩) :=
  recordDecisionTaskStarted_eventAlreadyStarted envW reqW msStartedOtherW diStartedOtherW
    msPendingW diPendingW rfl rfl (by decide) (by decide) rfl rfl rfl

/-- Counterexample to C2 as stated: on the concrete execution whose configured
sticky task list equals the poll request's task list but whose sticky affinity
has expired (last update at time 0, call at time 1000 with TTL 10), the call
succeeds yet the response reports stickyExecutionEnabled = false, refuting
"equal task lists imply stickyExecutionEnabled = true". -/
theorem recordDecisionTaskStarted_stickyComparison_counterexample :
    reqStickyW.pollTaskList = msStickyExpiredW.executionInfo.stickyTaskList
    ∧ Option.map RecordDecisionTaskStartedResponse.stickyExecutionEnabled
        ((recordDecisionTaskStarted envExpiredW reqStickyW [Except.ok msStickyExpiredW]
          [UpdateResult.success]).1.getOk)
      = some false :=
  ⟨rfl, rfl⟩

/-- C2 amended: for every successful RecordDecisionTaskStarted call, the
response's stickyExecutionEnabled flag is true exactly when the poll request's
task list equals the execution's configured sticky task list AND the sticky
affinity is still live (a sticky task list is configured and the call time is
within stickyTTL of the execution's last-updated timestamp); an expired
affinity yields false even on equal task lists; and when the task lists differ
the flag is false and the persisted execution's sticky metadata is cleared. -/
theorem recordDecisionTaskStarted_sticky_amended (env : Env)
    (req : RecordDecisionTaskStartedRequest) (ms : MutableState) (di : DecisionInfo)
    (hrun : isOpenState ms.executionInfo.state = true)
    (hdec : getDecisionInfo ms req.scheduleID = some di)
    (hpend : di.startedID = emptyEventID) :
    recordDecisionTaskStarted env req [Except.ok ms] [UpdateResult.success]
      = (.ok (startDecisionOutcome env req ms di).1,
         ⟨1, 1, 1, some (startDecisionOutcome env req ms di).2⟩)
    ∧ (startDecisionOutcome env req ms di).1.stickyExecutionEnabled
        = (decide (req.pollTaskList = ms.executionInfo.stickyTaskList)
            && isStickyTaskListEnabled ms env)
    ∧ (¬ req.pollTaskList = ms.executionInfo.stickyTaskList →
        (startDecisionOutcome env req ms di).2.executionInfo.stickyTaskList = "") := by
  refine ⟨?_, ?_, ?_⟩
  · have h := rds_successStep_general env req ms di hrun hdec hpend 4 [] [] Trace.empty
    simpa [recordDecisionTaskStarted, conditionalRetryCount, Trace.empty,
      Trace.recordGet, Trace.recordAppend, Trace.recordUpdate,
      Trace.recordPersisted] using h
  · by_cases hs : req.pollTaskList = ms.executionInfo.stickyTaskList
    · simp [startDecisionOutcome, hs, mkRDSResponse]
    · simp [startDecisionOutcome, hs, mkRDSResponse, clearStickyness,
        isStickyTaskListEnabled]
  · intro hs
    simp [startDecisionOutcome, hs, clearStickyness, addDecisionTaskStartedEvent,
      appendEvent]

/-- Witness for the amended C2 at the concrete expired-sticky execution: the
call succeeds, the flag equals the task-list comparison conjoined with sticky
liveness (here false), and the mismatch-clearing clause holds. -/
theorem recordDecisionTaskStarted_sticky_amended_witness :
    recordDecisionTaskStarted envExpiredW reqStickyW [Except.ok msStickyExpiredW]
        [UpdateResult.success]
      = (.ok (startDecisionOutcome envExpiredW reqStickyW msStickyExpiredW diPendingW).1,
         ⟨1, 1, 1,
          some (startDecisionOutcome envExpiredW reqStickyW msStickyExpiredW diPendingW).2⟩)
    ∧ (startDecisionOutcome envExpiredW reqStickyW msStickyExpiredW
          diPendingW).1.stickyExecutionEnabled
        = (decide (reqStickyW.pollTaskList
              = msStickyExpiredW.executionInfo.stickyTaskList)
            && isStickyTaskListEnabled msStickyExpiredW envExpiredW)
    ∧ (¬ reqStickyW.pollTaskList = msStickyExpiredW.executionInfo.stickyTaskList →
        (startDecisionOutcome envExpiredW reqStickyW msStickyExpiredW
          diPendingW).2.executionInfo.stickyTaskList = "") :=
  recordDecisionTaskStarted_sticky_amended envExpiredW reqStickyW msStickyExpiredW
    diPendingW rfl rfl rfl

/-- Helper: n successive appends assign the consecutive event ids
nextEventID, nextEventID + 1, ..., nextEventID + n - 1. -/
theorem appendEventIDs_range :
    ∀ (n : Nat) (ms : MutableState),
      appendEventIDs ms n
        = (List.range n).map (fun i : Nat => ms.executionInfo.nextEventID + (i : Int)) := by
  intro n
  induction n with
  | zero =>
    intro ms
    simp [appendEventIDs]
  | succ k ih =>
    intro ms
    have hstep : appendEventIDs ms (k + 1)
        = ms.executionInfo.nextEventID :: appendEventIDs (appendEvent ms).1 k := rfl
    have hnext : (appendEvent ms).1.executionInfo.nextEventID
        = ms.executionInfo.nextEventID + 1 := rfl
    have hfun : (fun i : Nat => ms.executionInfo.nextEventID + 1 + (i : Int))
        = ((fun i : Nat => ms.executionInfo.nextEventID + (i : Int)) ∘ Nat.succ) := by
      funext i
      simp only [Function.comp_apply, Nat.cast_succ]
      ring
    rw [hstep, ih, hnext, List.range_succ_eq_map, List.map_cons, List.map_map, hfun]
    simp

/-- C8: event ids assigned by successive appends on one execution are strictly
increasing by exactly one with no gaps or repeats (they form the consecutive
range starting at nextEventID), and starting a decision that was scheduled at
scheduleID assigns startedEventID = scheduleID + 1, each appended event
advancing nextEventID by exactly one. -/
theorem mutableState_eventIDs_monotonic (ms : MutableState)
    (hnd : ms.decision = none) :
    (∀ n : Nat, appendEventIDs ms n
        = (List.range n).map (fun i : Nat => ms.executionInfo.nextEventID + (i : Int)))
    ∧ ∀ ms2 di, addDecisionTaskScheduledEvent ms = .ok (ms2, di) →
        di.scheduleID = ms.executionInfo.nextEventID
        ∧ ms2.executionInfo.nextEventID = ms.executionInfo.nextEventID + 1
        ∧ ∀ reqID : String,
            (addDecisionTaskStartedEvent ms2 di reqID).2 = di.scheduleID + 1
            ∧ (addDecisionTaskStartedEvent ms2 di reqID).1.executionInfo.nextEventID
                = ms2.executionInfo.nextEventID + 1 := by
  constructor
  · intro n
    exact appendEventIDs_range n ms
  · intro ms2 di h
    simp only [addDecisionTaskScheduledEvent, hnd, appendEvent, EngineResult.ok.injEq,
      Prod.mk.injEq] at h
    obtain ⟨h1, h2⟩ := h
    subst h1
    subst h2
    refine ⟨rfl, rfl, ?_⟩
    intro reqID
    constructor
    · simp [addDecisionTaskStartedEvent, appendEvent]
    · simp [addDecisionTaskStartedEvent, appendEvent]

/-- Witness for C8 at the concrete fresh execution with nextEventID 1: three
appends assign exactly the ids 1, 2, 3. -/
theorem mutableState_eventIDs_monotonic_witness :
    msFreshW.decision = none ∧ appendEventIDs msFreshW 3 = [1, 2, 3] :=
  ⟨rfl, ((mutableState_eventIDs_monotonic msFreshW rfl).1 3).trans (by decide)⟩

/-- C4: for a StartWorkflowExecution call against a workflow id whose current
run is still open, an equal stored StartRequestID yields idempotent success
returning the existing runID without any second create, and a differing
requestID fails with WorkflowExecutionAlreadyStarted carrying the existing
runID, regardless of the reuse policy. -/
theorem startWorkflowExecution_openRun_dedup (domain requestID : String)
    (policy : WorkflowIDReusePolicy) (newRunID : String) (prev : PrevExecInfo)
    (rest : List CreateResult)
    (hopen : isOpenState prev.state = true) :
    (prev.startRequestID = requestID →
      startWorkflowExecution (some domain) requestID policy newRunID
          (CreateResult.alreadyStarted prev :: rest)
        = (.ok prev.runID,
           [PersistOp.appendHistory, PersistOp.createBrandNew requestID newRunID]))
    ∧ (¬ prev.startRequestID = requestID →
      startWorkflowExecution (some domain) requestID policy newRunID
          (CreateResult.alreadyStarted prev :: rest)
        = (.err (.workflowExecutionAlreadyStarted prev.runID),
           [PersistOp.appendHistory, PersistOp.createBrandNew requestID newRunID])) := by
  constructor
  · intro hreq
    simp [startWorkflowExecution, hopen, hreq]
  · intro hreq
    simp [startWorkflowExecution, hopen, hreq]

/-- Witness for C4 at the concrete open run "runID" started by "requestID":
the call with the same requestID dedups to "runID" and the call with
"newRequestID" fails with WorkflowExecutionAlreadyStarted. -/
theorem startWorkflowExecution_openRun_dedup_witness :
    startWorkflowExecution (some "domainID") "requestID"
        WorkflowIDReusePolicy.allowDuplicate "newRunID"
        [CreateResult.alreadyStarted prevOpenW]
      = (.ok "runID",
         [PersistOp.appendHistory, PersistOp.createBrandNew "requestID" "newRunID"])
    ∧ startWorkflowExecution (some "domainID") "newRequestID"
        WorkflowIDReusePolicy.allowDuplicate "newRunID"
        [CreateResult.alreadyStarted prevOpenW]
      = (.err (.workflowExecutionAlreadyStarted "runID"),
         [PersistOp.appendHistory, PersistOp.createBrandNew "newRequestID" "newRunID"]) :=
  ⟨(startWorkflowExecution_openRun_dedup "domainID" "requestID"
      WorkflowIDReusePolicy.allowDuplicate "newRunID" prevOpenW [] rfl).1 rfl,
   (startWorkflowExecution_openRun_dedup "domainID" "newRequestID"
      WorkflowIDReusePolicy.allowDuplicate "newRunID" prevOpenW [] rfl).2 (by decide)⟩

/-- C5: for a StartWorkflowExecution call against a workflow id whose current
run is closed, RejectDuplicate always fails with
WorkflowExecutionAlreadyStarted; AllowDuplicate always creates a new run whose
creation request carries the closed run's runID and last-write version; and
AllowDuplicateFailedOnly creates a new run exactly when the prior close status
is one of Failed, Canceled, Terminated, TimedOut, failing with
WorkflowExecutionAlreadyStarted otherwise. -/
theorem startWorkflowExecution_closedRun_reusePolicy (domain requestID newRunID : String)
    (prev : PrevExecInfo) (rest : List CreateResult)
    (hclosed : prev.state = WorkflowState.completed) :
    (startWorkflowExecution (some domain) requestID
        WorkflowIDReusePolicy.rejectDuplicate newRunID
        (CreateResult.alreadyStarted prev :: rest)
      = (.err (.workflowExecutionAlreadyStarted prev.runID),
         [PersistOp.appendHistory, PersistOp.createBrandNew requestID newRunID]))
    ∧ (startWorkflowExecution (some domain) requestID
        WorkflowIDReusePolicy.allowDuplicate newRunID
        [CreateResult.alreadyStarted prev, CreateResult.ok]
      = (.ok newRunID,
         [PersistOp.appendHistory, PersistOp.createBrandNew requestID newRunID,
          PersistOp.createReuse prev.runID prev.lastWriteVersion]))
    ∧ (isFailedClose prev.closeStatus = true →
      startWorkflowExecution (some domain) requestID
        WorkflowIDReusePolicy.allowDuplicateFailedOnly newRunID
        [CreateResult.alreadyStarted prev, CreateResult.ok]
      = (.ok newRunID,
         [PersistOp.appendHistory, PersistOp.createBrandNew requestID newRunID,
          PersistOp.createReuse prev.runID prev.lastWriteVersion]))
    ∧ (isFailedClose prev.closeStatus = false →
      startWorkflowExecution (some domain) requestID
        WorkflowIDReusePolicy.allowDuplicateFailedOnly newRunID
        (CreateResult.alreadyStarted prev :: rest)
      = (.err (.workflowExecutionAlreadyStarted prev.runID),
         [PersistOp.appendHistory, PersistOp.createBrandNew requestID newRunID])) := by
  have hnotopen : isOpenState prev.state = false := by
    simp [isOpenState, hclosed]
  refine ⟨?_, ?_, ?_, ?_⟩
  · simp [startWorkflowExecution, hnotopen, applyWorkflowIDReusePolicy]
  · simp [startWorkflowExecution, hnotopen, applyWorkflowIDReusePolicy]
  · intro hfc
    simp [startWorkflowExecution, hnotopen, applyWorkflowIDReusePolicy, hfc]
  · intro hfc
    simp [startWorkflowExecution, hnotopen, applyWorkflowIDReusePolicy, hfc]

/-- Witness for C5 at the concrete closed runs: RejectDuplicate fails on a
completed prior run; AllowDuplicate reuse-creates seeded with the prior runID
and last-write version; AllowDuplicateFailedOnly creates after a failed prior
run and fails after a completed prior run. -/
theorem startWorkflowExecution_closedRun_reusePolicy_witness :
    startWorkflowExecution (some "domainID") "newRequestID"
        WorkflowIDReusePolicy.rejectDuplicate "newRunID"
        [CreateResult.alreadyStarted prevClosedCompletedW]
      = (.err (.workflowExecutionAlreadyStarted "runID"),
         [PersistOp.appendHistory, PersistOp.createBrandNew "newRequestID" "newRunID"])
    ∧ startWorkflowExecution (some "domainID") "newRequestID"
        WorkflowIDReusePolicy.allowDuplicate "newRunID"
        [CreateResult.alreadyStarted prevClosedCompletedW, CreateResult.ok]
      = (.ok "newRunID",
         [PersistOp.appendHistory, PersistOp.createBrandNew "newRequestID" "newRunID",
          PersistOp.createReuse "runID" (-24)])
    ∧ startWorkflowExecution (some "domainID") "newRequestID"
        WorkflowIDReusePolicy.allowDuplicateFailedOnly "newRunID"
        [CreateResult.alreadyStarted prevClosedFailedW, CreateResult.ok]
      = (.ok "newRunID",
         [PersistOp.appendHistory, PersistOp.createBrandNew "newRequestID" "newRunID",
          PersistOp.createReuse "1" (-24)])
    ∧ startWorkflowExecution (some "domainID") "newRequestID"
        WorkflowIDReusePolicy.allowDuplicateFailedOnly "newRunID"
        [CreateResult.alreadyStarted prevClosedCompletedW]
      = (.err (.workflowExecutionAlreadyStarted "runID"),
         [PersistOp.appendHistory, PersistOp.createBrandNew "newRequestID" "newRunID"]) :=
  ⟨(startWorkflowExecution_closedRun_reusePolicy "domainID" "newRequestID" "newRunID"
      prevClosedCompletedW [] rfl).1,
   (startWorkflowExecution_closedRun_reusePolicy "domainID" "newRequestID" "newRunID"
      prevClosedCompletedW [] rfl).2.1,
   (startWorkflowExecution_closedRun_reusePolicy "domainID" "newRequestID" "newRunID"
      prevClosedFailedW [] rfl).2.2.1 rfl,
   (startWorkflowExecution_closedRun_reusePolicy "domainID" "newRequestID" "newRunID"
      prevClosedCompletedW [] rfl).2.2.2 rfl⟩

/-- C9: a StartWorkflowExecution or SignalWithStartWorkflowExecution request
whose domain identifier is absent fails with BadRequest before any persistence
operation: no store load, create, append or update is attempted. -/
theorem missingDomain_failsFast_badRequest (requestID : String)
    (policy : WorkflowIDReusePolicy) (newRunID : String)
    (creates : List CreateResult) (script : SWSScript) :
    startWorkflowExecution none requestID policy newRunID creates
      = (.err (.badRequest "Missing domain UUID."), [])
    ∧ signalWithStartWorkflowExecution none requestID policy newRunID script
      = ((none, some (.badRequest "Missing domain UUID.")), []) :=
  ⟨rfl, rfl⟩

/-- C10: when no current execution exists and the store's
CreateWorkflowExecution fails with Timeout, SignalWithStartWorkflowExecution
propagates the Timeout error while simultaneously returning a response carrying
the runID it attempted to create, and this is the only shape of failure that
returns a response: on every outcome with both a response and an error present,
the error is Timeout and the script's create outcome was Timeout, every other
failure path returning no response. -/
theorem signalWithStart_createTimeout_bothNonNil (domain requestID : String)
    (policy : WorkflowIDReusePolicy) (newRunID : String) (script : SWSScript)
    (hcur : script.getCurrent = Except.error GetErr.entityNotExists)
    (hcreate : script.create = CreateResult.timeout) :
    signalWithStartWorkflowExecution (some domain) requestID policy newRunID script
      = ((some newRunID, some .timeout),
         [PersistOp.getCurrentExecution, PersistOp.appendHistory,
          PersistOp.createBrandNew requestID newRunID])
    ∧ ∀ (domain2 : Option String) (requestID2 : String)
        (policy2 : WorkflowIDReusePolicy) (newRunID2 : String) (script2 : SWSScript)
        (r : String) (e : EngineErr),
        (signalWithStartWorkflowExecution domain2 requestID2 policy2 newRunID2
            script2).1 = (some r, some e) →
        e = .timeout ∧ script2.create = CreateResult.timeout := by
  constructor
  · simp [signalWithStartWorkflowExecution, hcur, hcreate, signalCreatePart]
  · intro domain2 requestID2 policy2 newRunID2 script2 r e h
    obtain ⟨gc, ge, sp, cr⟩ := script2
    cases domain2 with
    | none => simp [signalWithStartWorkflowExecution] at h
    | some d =>
      cases gc with
      | error geErr =>
        cases geErr with
        | entityNotExists =>
          cases cr with
          | ok => simp_all [signalWithStartWorkflowExecution, signalCreatePart]
          | timeout => simp_all [signalWithStartWorkflowExecution, signalCreatePart]
          | alreadyStarted prev =>
            simp only [signalWithStartWorkflowExecution, signalCreatePart] at h
            split at h
            · exact absurd h (by simp)
            · exact absurd h (by simp)
        | other m => simp [signalWithStartWorkflowExecution] at h
      | ok cur =>
        cases ge with
        | error g2 => simp [signalWithStartWorkflowExecution] at h
        | ok ms =>
          by_cases hopen : isOpenState ms.executionInfo.state = true
          · cases sp with
            | none => simp [signalWithStartWorkflowExecution, hopen] at h
            | some e2 => simp [signalWithStartWorkflowExecution, hopen] at h
          · by_cases hpol :
              applyWorkflowIDReusePolicy policy2 ms.executionInfo.closeStatus = true
            · cases cr with
              | ok =>
                simp_all [signalWithStartWorkflowExecution, signalCreatePart]
              | timeout =>
                simp_all [signalWithStartWorkflowExecution, signalCreatePart]
              | alreadyStarted prev =>
                simp [signalWithStartWorkflowExecution, signalCreatePart, hopen,
                  hpol] at h
                split at h
                · exact absurd h (by simp)
                · exact absurd h (by simp)
            · simp [signalWithStartWorkflowExecution, hopen, hpol] at h

/-- Witness for C10 at the concrete script with no current execution and a
create timeout: the call returns both the attempted runID and the Timeout
error. -/
theorem signalWithStart_createTimeout_bothNonNil_witness :
    signalWithStartWorkflowExecution (some "domainID") "requestID"
        WorkflowIDReusePolicy.allowDuplicate "newRunID" swsTimeoutScriptW
      = ((some "newRunID", some .timeout),
         [PersistOp.getCurrentExecution, PersistOp.appendHistory,
          PersistOp.createBrandNew "requestID" "newRunID"]) :=
  (signalWithStart_createTimeout_bothNonNil "domainID" "requestID"
    WorkflowIDReusePolicy.allowDuplicate "newRunID" swsTimeoutScriptW rfl rfl).1
